import Mathlib

/-!
Verification development for the Library-jb-API backend (src/index.js).

The server keeps three Sequelize models (Usuario, Livro, Emprestimo) in a
MySQL store and exposes Express routes over them.  We embed the store as a
record of lists keyed by an auto-increment primary key (Sequelize ids start
at 1), and each route handler as a pure function from the store (plus the
request data and, where the handler reads the clock, the current day) to a
result paired with the next store.

Dates are modelled as integer day numbers: the only date arithmetic in the
source is `setDate(getDate() + 7)`, which adds exactly seven days.

Ghost data: the source has no stored total-quantity column; the spec's
`total_quantity` is the quantity a Livro was created with.  The store below
carries a ghost association list `totais` recording that creation quantity.
No route handler reads it, and only book creation writes it, so it does not
influence the embedded behaviour.
-/

structure Usuario where
  id : Nat
  nome : String
  email : String
  senha : String
  deriving DecidableEq

structure Livro where
  id : Nat
  titulo : String
  autor : String
  quantidade : Int
  editora : String
  assunto : String
  faixaEtaria : String
  imagem : Option String
  deriving DecidableEq

/-- Emprestimo model (src/index.js lines 94-105): a loan with a due date and
a renewal counter defaulting to 0, plus the foreign keys added by the
`hasMany`/`belongsTo` associations. `renovacoes` embeds the source column
written `renovações`. -/
structure Emprestimo where
  id : Nat
  usuarioId : Nat
  livroId : Nat
  dataVencimento : Int
  renovacoes : Nat
  deriving DecidableEq

/-- The persistent store: the three tables, their auto-increment counters,
and the ghost `totais` list (creation-time quantity per book id). -/
structure DB where
  usuarios : List Usuario
  livros : List Livro
  emprestimos : List Emprestimo
  nextUsuarioId : Nat
  nextLivroId : Nat
  nextEmprestimoId : Nat
  totais : List (Nat × Int)
  deriving DecidableEq

def dbInit : DB :=
  { usuarios := [], livros := [], emprestimos := [],
    nextUsuarioId := 1, nextLivroId := 1, nextEmprestimoId := 1, totais := [] }

/-- `Model.findByPk` for Usuario. -/
def findUsuario (db : DB) (id : Nat) : Option Usuario :=
  db.usuarios.find? (fun u => u.id == id)

/-- `Model.findByPk` for Livro. -/
def findLivro (db : DB) (id : Nat) : Option Livro :=
  db.livros.find? (fun l => l.id == id)

/-- `Model.findByPk` for Emprestimo. -/
def findEmprestimo (db : DB) (id : Nat) : Option Emprestimo :=
  db.emprestimos.find? (fun e => e.id == id)

/-- `instance.save()` for a Livro row: the row with the instance's primary
key is overwritten with the instance. -/
def updateLivro (livros : List Livro) (novo : Livro) : List Livro :=
  livros.map (fun l => if l.id == novo.id then novo else l)

/-- `instance.save()` for an Emprestimo row. -/
def updateEmprestimo (es : List Emprestimo) (novo : Emprestimo) : List Emprestimo :=
  es.map (fun e => if e.id == novo.id then novo else e)

/-- `instance.save()` for a Usuario row. -/
def updateUsuario (us : List Usuario) (novo : Usuario) : List Usuario :=
  us.map (fun u => if u.id == novo.id then novo else u)

/-- POST /registrar (lines 187-195): `Usuario.create` with the body fields. -/
def registrar (db : DB) (nome email senha : String) : Usuario × DB :=
  ( { id := db.nextUsuarioId, nome := nome, email := email, senha := senha },
    { db with
      usuarios := db.usuarios ++
        [{ id := db.nextUsuarioId, nome := nome, email := email, senha := senha }],
      nextUsuarioId := db.nextUsuarioId + 1 } )

/-- POST /livros (lines 121-141): `Livro.create` with the body fields and the
optional uploaded image filename.  The ghost `totais` entry records the
creation quantity (the spec's total_quantity). -/
def criarLivro (db : DB) (titulo autor : String) (quantidade : Int)
    (editora assunto faixaEtaria : String) (imagem : Option String) : Livro × DB :=
  ( { id := db.nextLivroId, titulo := titulo, autor := autor,
      quantidade := quantidade, editora := editora, assunto := assunto,
      faixaEtaria := faixaEtaria, imagem := imagem },
    { db with
      livros := db.livros ++
        [{ id := db.nextLivroId, titulo := titulo, autor := autor,
           quantidade := quantidade, editora := editora, assunto := assunto,
           faixaEtaria := faixaEtaria, imagem := imagem }],
      totais := (db.nextLivroId, quantidade) :: db.totais,
      nextLivroId := db.nextLivroId + 1 } )

/-- JavaScript `novo || antigo` for a string-valued field: a missing value
and the empty string (the falsy strings) fall back to the old value. -/
def jsOrString (novo : Option String) (antigo : String) : String :=
  match novo with
  | some s => if s == "" then antigo else s
  | none => antigo

/-- JavaScript `novo || antigo` for a numeric field: missing and 0 (the
falsy numbers) fall back to the old value. -/
def jsOrInt (novo : Option Int) (antigo : Int) : Int :=
  match novo with
  | some n => if n == 0 then antigo else n
  | none => antigo

/-- Request body of PUT /livros/:id; absent fields are `none`. -/
structure LivroBody where
  titulo : Option String
  autor : Option String
  quantidade : Option Int
  editora : Option String
  assunto : Option String
  faixaEtaria : Option String
  deriving DecidableEq

/-- Lines 154-164: the field-by-field `livro.campo = novo || livro.campo`
assignments, plus `livro.imagem = req.file.filename` when a file was sent. -/
def livroAtualizado (livro : Livro) (body : LivroBody) (file : Option String) : Livro :=
  { livro with
    titulo := jsOrString body.titulo livro.titulo,
    autor := jsOrString body.autor livro.autor,
    quantidade := jsOrInt body.quantidade livro.quantidade,
    editora := jsOrString body.editora livro.editora,
    assunto := jsOrString body.assunto livro.assunto,
    faixaEtaria := jsOrString body.faixaEtaria livro.faixaEtaria,
    imagem := match file with
      | some f => some f
      | none => livro.imagem }

inductive AtualizarLivroResult where
  | atualizado (livro : Livro)
  | naoEncontrado
  deriving DecidableEq

/-- PUT /livros/:id (lines 144-172): 404 when the id does not resolve,
otherwise the partial update followed by `livro.save()`. -/
def atualizarLivro (db : DB) (livroId : Nat) (body : LivroBody) (file : Option String) :
    AtualizarLivroResult × DB :=
  match findLivro db livroId with
  | none => (AtualizarLivroResult.naoEncontrado, db)
  | some livro =>
    (AtualizarLivroResult.atualizado (livroAtualizado livro body file),
     { db with livros := updateLivro db.livros (livroAtualizado livro body file) })

/-- Request body of PUT /usuarios/:id. -/
structure UsuarioBody where
  nome : Option String
  email : Option String
  senha : Option String
  deriving DecidableEq

inductive AtualizarUsuarioResult where
  | atualizado (u : Usuario)
  | naoEncontrado
  deriving DecidableEq

/-- PUT /usuarios/:id (lines 198-218): same partial-update pattern. -/
def atualizarUsuario (db : DB) (id : Nat) (body : UsuarioBody) :
    AtualizarUsuarioResult × DB :=
  match findUsuario db id with
  | none => (AtualizarUsuarioResult.naoEncontrado, db)
  | some u =>
    let novo : Usuario :=
      { u with
        nome := jsOrString body.nome u.nome,
        email := jsOrString body.email u.email,
        senha := jsOrString body.senha u.senha }
    (AtualizarUsuarioResult.atualizado novo,
     { db with usuarios := updateUsuario db.usuarios novo })

/-- POST /login (lines 221-234): `Usuario.findOne` on equality of both email
and senha; the matched row itself is the 200 response body and the store is
untouched. -/
def login (db : DB) (email senha : String) : Option Usuario × DB :=
  (db.usuarios.find? (fun u => u.email == email && u.senha == senha), db)

inductive AlugarResult where
  /-- 201 with the created Emprestimo. -/
  | created (e : Emprestimo)
  /-- The single 400 response of line 258; the handler does not distinguish
  an unresolved user id, an unresolved book id and zero quantity. -/
  | invalido
  deriving DecidableEq

/-- The Emprestimo row created by POST /alugar (lines 244-251): due in 7
days from now, renewal count left at its default 0. -/
def novoEmprestimo (db : DB) (usuarioId livroId : Nat) (agora : Int) : Emprestimo :=
  { id := db.nextEmprestimoId, usuarioId := usuarioId, livroId := livroId,
    dataVencimento := agora + 7, renovacoes := 0 }

/-- POST /alugar (lines 237-263), with `agora` the current day: when both
ids resolve and the quantity is positive, create the loan due in 7 days with
the default renewal count 0, then decrement and save the book. -/
def alugar (db : DB) (usuarioId livroId : Nat) (agora : Int) : AlugarResult × DB :=
  match findUsuario db usuarioId, findLivro db livroId with
  | some _, some livro =>
    if 0 < livro.quantidade then
      (AlugarResult.created (novoEmprestimo db usuarioId livroId agora),
       { db with
         emprestimos := db.emprestimos ++ [novoEmprestimo db usuarioId livroId agora],
         livros := updateLivro db.livros { livro with quantidade := livro.quantidade - 1 },
         nextEmprestimoId := db.nextEmprestimoId + 1 })
    else (AlugarResult.invalido, db)
  | _, _ => (AlugarResult.invalido, db)

inductive DevolverResult where
  | sucesso
  /-- 400 of line 280: the loan's book id does not resolve. -/
  | livroNaoEncontrado
  /-- 400 of line 283: the loan id does not resolve. -/
  | emprestimoInvalido
  deriving DecidableEq

/-- DELETE /devolver/:emprestimoId (lines 266-288): when the loan and its
book resolve, increment and save the book, then destroy the loan row. -/
def devolver (db : DB) (emprestimoId : Nat) : DevolverResult × DB :=
  match findEmprestimo db emprestimoId with
  | none => (DevolverResult.emprestimoInvalido, db)
  | some emprestimo =>
    match findLivro db emprestimo.livroId with
    | none => (DevolverResult.livroNaoEncontrado, db)
    | some livro =>
      (DevolverResult.sucesso,
       { db with
         livros := updateLivro db.livros { livro with quantidade := livro.quantidade + 1 },
         emprestimos := db.emprestimos.filter (fun e => !(e.id == emprestimoId)) })

inductive RenovarResult where
  | sucesso
  /-- The single 400 of line 304, used both for an unresolved loan id and for
  a loan already renewed twice. -/
  | naoPodeRenovar
  deriving DecidableEq

/-- The in-memory Emprestimo object after lines 298-299 of the handler:
`renovações += 1` and `dataVencimento.setDate(getDate() + 7)`. -/
def renovarEmMemoria (e : Emprestimo) : Emprestimo :=
  { e with renovacoes := e.renovacoes + 1, dataVencimento := e.dataVencimento + 7 }

/-- POST /renovar (lines 291-309).  Persistence is Sequelize's
`instance.save()`, which writes only the attributes its change tracking has
flagged: line 298 assigns through the model setter, so the incremented
renewal count is flagged and written; line 299 instead mutates the Date
object held in `dataVencimento` in place, never assigning the attribute, so
Sequelize does not flag it and `save()` leaves the stored due date
unchanged.  The stored row therefore gains only the new renewal count. -/
def renovar (db : DB) (emprestimoId : Nat) : RenovarResult × DB :=
  match findEmprestimo db emprestimoId with
  | none => (RenovarResult.naoPodeRenovar, db)
  | some emprestimo =>
    if emprestimo.renovacoes < 2 then
      let persistido : Emprestimo := { emprestimo with renovacoes := emprestimo.renovacoes + 1 }
      (RenovarResult.sucesso,
       { db with emprestimos := updateEmprestimo db.emprestimos persistido })
    else (RenovarResult.naoPodeRenovar, db)

/-- Number of open loans referencing a book. -/
def abertos (db : DB) (livroId : Nat) : Nat :=
  db.emprestimos.countP (fun e => e.livroId == livroId)

/-- The spec's total_quantity of a book: the ghost creation-time quantity. -/
def totalDe (db : DB) (livroId : Nat) : Int :=
  (((db.totais.find? (fun p => p.1 == livroId)).map (fun p => p.2)).getD 0)

/-- The spec's global inventory invariant: for every book, available
quantity plus open loans referencing it equals its total quantity. -/
def inventarioOk (db : DB) : Prop :=
  ∀ l ∈ db.livros, l.quantidade + (abertos db l.id : Int) = totalDe db l.id

instance (db : DB) : Decidable (inventarioOk db) :=
  inferInstanceAs
    (Decidable (∀ l ∈ db.livros, l.quantidade + (abertos db l.id : Int) = totalDe db l.id))

/-- Every loan's renewal count is at most 2. -/
def renovacoesOk (db : DB) : Prop :=
  ∀ e ∈ db.emprestimos, e.renovacoes ≤ 2

instance (db : DB) : Decidable (renovacoesOk db) :=
  inferInstanceAs (Decidable (∀ e ∈ db.emprestimos, e.renovacoes ≤ 2))

/-- States reachable from the empty store through the route handlers.  The
flag selects whether the PUT /livros/:id handler is among the allowed
steps: `Reachable true` is full reachability, `Reachable false` excludes
book updates. -/
inductive Reachable : Bool → DB → Prop where
  | init (b : Bool) : Reachable b dbInit
  | stepRegistrar (b : Bool) (db : DB) (nome email senha : String) :
      Reachable b db → Reachable b (registrar db nome email senha).2
  | stepCriarLivro (b : Bool) (db : DB) (titulo autor : String) (quantidade : Int)
      (editora assunto faixaEtaria : String) (imagem : Option String) :
      Reachable b db →
      Reachable b (criarLivro db titulo autor quantidade editora assunto faixaEtaria imagem).2
  | stepAtualizarLivro (db : DB) (livroId : Nat) (body : LivroBody) (file : Option String) :
      Reachable true db → Reachable true (atualizarLivro db livroId body file).2
  | stepAtualizarUsuario (b : Bool) (db : DB) (id : Nat) (body : UsuarioBody) :
      Reachable b db → Reachable b (atualizarUsuario db id body).2
  | stepAlugar (b : Bool) (db : DB) (usuarioId livroId : Nat) (agora : Int) :
      Reachable b db → Reachable b (alugar db usuarioId livroId agora).2
  | stepDevolver (b : Bool) (db : DB) (emprestimoId : Nat) :
      Reachable b db → Reachable b (devolver db emprestimoId).2
  | stepRenovar (b : Bool) (db : DB) (emprestimoId : Nat) :
      Reachable b db → Reachable b (renovar db emprestimoId).2

/-! Helper lemmas about the row-update and row-delete list operations. -/

theorem mem_updateLivro {ls : List Livro} {novo x : Livro}
    (hx : x ∈ updateLivro ls novo) :
    x = novo ∨ (x ∈ ls ∧ x.id ≠ novo.id) := by
  unfold updateLivro at hx
  rcases List.mem_map.mp hx with ⟨a, ha, hax⟩
  by_cases h : (a.id == novo.id) = true
  · rw [if_pos h] at hax
    exact Or.inl hax.symm
  · rw [if_neg h] at hax
    refine Or.inr ⟨hax ▸ ha, ?_⟩
    rw [← hax]
    simpa using h

theorem mem_updateEmprestimo {es : List Emprestimo} {novo x : Emprestimo}
    (hx : x ∈ updateEmprestimo es novo) :
    x = novo ∨ (x ∈ es ∧ x.id ≠ novo.id) := by
  unfold updateEmprestimo at hx
  rcases List.mem_map.mp hx with ⟨a, ha, hax⟩
  by_cases h : (a.id == novo.id) = true
  · rw [if_pos h] at hax
    exact Or.inl hax.symm
  · rw [if_neg h] at hax
    refine Or.inr ⟨hax ▸ ha, ?_⟩
    rw [← hax]
    simpa using h

theorem find?_cons_true {α : Type} (p : α → Bool) (a : α) (t : List α) (h : p a = true) :
    (a :: t).find? p = some a := by
  rw [List.find?_cons, h]

theorem find?_cons_false {α : Type} (p : α → Bool) (a : α) (t : List α) (h : p a = false) :
    (a :: t).find? p = t.find? p := by
  rw [List.find?_cons, h]

theorem find?_updateLivro (ls : List Livro) (id : Nat) (x novo : Livro)
    (h : ls.find? (fun l => l.id == id) = some x) (hk : novo.id = x.id) :
    (updateLivro ls novo).find? (fun l => l.id == id) = some novo := by
  unfold updateLivro
  induction ls with
  | nil => simp at h
  | cons a t ih =>
    by_cases ha : (a.id == id) = true
    · rw [find?_cons_true _ a t ha] at h
      have hx : x = a := (Option.some.inj h).symm
      have h1 : (a.id == novo.id) = true := by
        simp only [beq_iff_eq] at ha ⊢
        rw [hk, hx, ha]
      have h2 : (novo.id == id) = true := by
        simp only [beq_iff_eq] at ha ⊢
        rw [hk, hx]
        exact ha
      rw [List.map_cons, if_pos h1, find?_cons_true _ novo _ h2]
    · have ha' : (a.id == id) = false := by simpa using ha
      rw [find?_cons_false _ a t ha'] at h
      have hxid : x.id = id := by simpa using List.find?_some h
      have hne : ¬ (a.id == novo.id) = true := by
        simp only [beq_iff_eq, hk, hxid]
        simpa using ha
      rw [List.map_cons, if_neg hne, find?_cons_false _ a _ ha']
      exact ih h

theorem map_id_updateEmprestimo (es : List Emprestimo) (novo : Emprestimo) :
    (updateEmprestimo es novo).map (fun x => x.id) = es.map (fun x => x.id) := by
  unfold updateEmprestimo
  rw [List.map_map]
  apply List.map_congr_left
  intro a _
  by_cases h : (a.id == novo.id) = true
  · have h2 : a.id = novo.id := by simpa using h
    simp [Function.comp_apply, h2]
  · have h2 : ¬ a.id = novo.id := by simpa using h
    simp [Function.comp_apply, h2]

theorem find?_id_filter_ne (es : List Emprestimo) (id : Nat) :
    (es.filter (fun e => !(e.id == id))).find? (fun e => e.id == id) = none := by
  rw [List.find?_eq_none]
  intro e he
  have h2 := (List.mem_filter.mp he).2
  simp only [Bool.not_eq_true'] at h2
  simp [h2]

theorem filter_ne_eq_self (es : List Emprestimo) (id : Nat)
    (h : ∀ x ∈ es, x.id ≠ id) :
    es.filter (fun x => !(x.id == id)) = es := by
  rw [List.filter_eq_self]
  intro x hx
  simp [h x hx]

theorem map_update_eq_self (es : List Emprestimo) (novo : Emprestimo)
    (h : ∀ x ∈ es, x.id ≠ novo.id) :
    es.map (fun x => if x.id == novo.id then novo else x) = es := by
  induction es with
  | nil => rfl
  | cons a t ih =>
    have ha : ¬ (a.id == novo.id) = true := by
      simpa using h a (List.mem_cons_self a t)
    rw [List.map_cons, if_neg ha, ih (fun x hx => h x (List.mem_cons_of_mem a hx))]

theorem length_filter_ne (es : List Emprestimo) (id : Nat) (e : Emprestimo)
    (he : e ∈ es) (hid : e.id = id) (hn : (es.map (fun x => x.id)).Nodup) :
    (es.filter (fun x => !(x.id == id))).length + 1 = es.length := by
  induction es with
  | nil => simp at he
  | cons a t ih =>
    rw [List.map_cons, List.nodup_cons] at hn
    by_cases ha : a.id = id
    · have hfa : (!(a.id == id)) = false := by simp [ha]
      rw [List.filter_cons, hfa]
      have hsame : t.filter (fun x => !(x.id == id)) = t := by
        apply filter_ne_eq_self
        intro x hx hxe
        exact hn.1 (List.mem_map.mpr ⟨x, hx, hxe.trans ha.symm⟩)
      rw [hsame]
      simp
    · have hfa : (!(a.id == id)) = true := by simp [ha]
      rw [List.filter_cons, hfa]
      have het : e ∈ t := by
        rcases List.mem_cons.mp he with h | h
        · exact absurd (h ▸ hid) ha
        · exact h
      have hrec := ih het hn.2
      simp only [if_true, List.length_cons]
      omega

theorem countP_filter_ne (es : List Emprestimo) (id : Nat) (e : Emprestimo)
    (p : Emprestimo → Bool) (he : e ∈ es) (hid : e.id = id)
    (hn : (es.map (fun x => x.id)).Nodup) :
    (es.filter (fun x => !(x.id == id))).countP p + (if p e then 1 else 0) = es.countP p := by
  induction es with
  | nil => simp at he
  | cons a t ih =>
    rw [List.map_cons, List.nodup_cons] at hn
    by_cases ha : a.id = id
    · have hea : e = a := by
        rcases List.mem_cons.mp he with h | h
        · exact h
        · exact absurd (List.mem_map.mpr ⟨e, h, hid.trans ha.symm⟩) hn.1
      have hfa : (!(a.id == id)) = false := by simp [ha]
      rw [List.filter_cons, hfa]
      have hsame : t.filter (fun x => !(x.id == id)) = t := by
        apply filter_ne_eq_self
        intro x hx hxe
        exact hn.1 (List.mem_map.mpr ⟨x, hx, hxe.trans ha.symm⟩)
      rw [hsame, List.countP_cons, hea]
      simp
    · have hfa : (!(a.id == id)) = true := by simp [ha]
      rw [List.filter_cons, hfa]
      have het : e ∈ t := by
        rcases List.mem_cons.mp he with h | h
        · exact absurd (h ▸ hid) ha
        · exact h
      have hrec := ih het hn.2
      simp only [if_true, List.countP_cons]
      omega

theorem countP_updateEmprestimo (es : List Emprestimo) (novo e : Emprestimo)
    (p : Emprestimo → Bool) (he : e ∈ es) (hid : novo.id = e.id) (hp : p novo = p e)
    (hn : (es.map (fun x => x.id)).Nodup) :
    (updateEmprestimo es novo).countP p = es.countP p := by
  unfold updateEmprestimo
  induction es with
  | nil => simp at he
  | cons a t ih =>
    rw [List.map_cons, List.nodup_cons] at hn
    by_cases ha : a.id = novo.id
    · have hea : e = a := by
        rcases List.mem_cons.mp he with h | h
        · exact h
        · exact absurd (List.mem_map.mpr ⟨e, h, (hid ▸ ha : a.id = e.id).symm ▸ rfl⟩) hn.1
      have hhead : (a.id == novo.id) = true := by simp [ha]
      rw [List.map_cons, if_pos hhead]
      have hsame : t.map (fun x => if x.id == novo.id then novo else x) = t := by
        apply map_update_eq_self
        intro x hx hxe
        exact hn.1 (List.mem_map.mpr ⟨x, hx, hxe.trans ha.symm⟩)
      rw [hsame, List.countP_cons, List.countP_cons, hp, hea]
    · have hhead : ¬ (a.id == novo.id) = true := by simp [ha]
      rw [List.map_cons, if_neg hhead]
      have het : e ∈ t := by
        rcases List.mem_cons.mp he with h | h
        · exact absurd ((h ▸ hid : novo.id = a.id).symm) ha
        · exact h
      rw [List.countP_cons, List.countP_cons, ih het hn.2]

/-! Auxiliary invariants used in the reachability induction. -/

/-- Bookkeeping facts about primary keys that hold in every reachable
state: ids are below the auto-increment counters, loans reference already
created book ids, and loan ids are pairwise distinct. -/
def idsOk (db : DB) : Prop :=
  (∀ l ∈ db.livros, l.id < db.nextLivroId) ∧
  (∀ e ∈ db.emprestimos, e.livroId < db.nextLivroId) ∧
  (∀ e ∈ db.emprestimos, e.id < db.nextEmprestimoId) ∧
  (db.emprestimos.map (fun e => e.id)).Nodup

theorem invariantes_congr (db1 db2 : DB)
    (hl : db2.livros = db1.livros) (he : db2.emprestimos = db1.emprestimos)
    (hnl : db2.nextLivroId = db1.nextLivroId)
    (hne : db2.nextEmprestimoId = db1.nextEmprestimoId)
    (ht : db2.totais = db1.totais) (H : idsOk db1 ∧ inventarioOk db1) :
    idsOk db2 ∧ inventarioOk db2 := by
  unfold idsOk inventarioOk abertos totalDe at H ⊢
  rw [hl, he, hnl, hne, ht]
  exact H

theorem atualizarUsuario_snd (db : DB) (id : Nat) (body : UsuarioBody) :
    (atualizarUsuario db id body).2.livros = db.livros ∧
    (atualizarUsuario db id body).2.emprestimos = db.emprestimos ∧
    (atualizarUsuario db id body).2.nextLivroId = db.nextLivroId ∧
    (atualizarUsuario db id body).2.nextEmprestimoId = db.nextEmprestimoId ∧
    (atualizarUsuario db id body).2.totais = db.totais := by
  unfold atualizarUsuario
  cases hf : findUsuario db id
  · exact ⟨rfl, rfl, rfl, rfl, rfl⟩
  · exact ⟨rfl, rfl, rfl, rfl, rfl⟩

theorem atualizarLivro_emprestimos (db : DB) (livroId : Nat) (body : LivroBody)
    (file : Option String) :
    (atualizarLivro db livroId body file).2.emprestimos = db.emprestimos := by
  unfold atualizarLivro
  cases hf : findLivro db livroId
  · rfl
  · rfl

theorem alugar_snd_cases (db : DB) (u l : Nat) (agora : Int) :
    (alugar db u l agora).2 = db ∨
    ∃ usuario livro, findUsuario db u = some usuario ∧ findLivro db l = some livro ∧
      0 < livro.quantidade ∧
      (alugar db u l agora).2 =
        { db with
          emprestimos := db.emprestimos ++ [novoEmprestimo db u l agora],
          livros := updateLivro db.livros
            ({ livro with quantidade := livro.quantidade - 1 }),
          nextEmprestimoId := db.nextEmprestimoId + 1 } := by
  cases hu : findUsuario db u with
  | none =>
    left
    simp only [alugar, hu]
  | some usuario =>
    cases hl : findLivro db l with
    | none =>
      left
      simp only [alugar, hu, hl]
    | some livro =>
      by_cases hq : 0 < livro.quantidade
      · refine Or.inr ⟨usuario, livro, rfl, rfl, hq, ?_⟩
        simp only [alugar, hu, hl]
        rw [if_pos hq]
      · left
        simp only [alugar, hu, hl]
        rw [if_neg hq]

theorem devolver_snd_cases (db : DB) (eid : Nat) :
    (devolver db eid).2 = db ∨
    ∃ emp livro, findEmprestimo db eid = some emp ∧ findLivro db emp.livroId = some livro ∧
      (devolver db eid).2 =
        { db with
          livros := updateLivro db.livros
            ({ livro with quantidade := livro.quantidade + 1 }),
          emprestimos := db.emprestimos.filter (fun e => !(e.id == eid)) } := by
  cases he : findEmprestimo db eid with
  | none =>
    left
    simp only [devolver, he]
  | some emp =>
    cases hl : findLivro db emp.livroId with
    | none =>
      left
      simp only [devolver, he, hl]
    | some livro =>
      refine Or.inr ⟨emp, livro, rfl, hl, ?_⟩
      simp only [devolver, he, hl]

theorem renovar_snd_cases (db : DB) (eid : Nat) :
    (renovar db eid).2 = db ∨
    ∃ emp, findEmprestimo db eid = some emp ∧ emp.renovacoes < 2 ∧
      (renovar db eid).2 =
        { db with
          emprestimos := updateEmprestimo db.emprestimos
            ({ emp with renovacoes := emp.renovacoes + 1 }) } := by
  cases he : findEmprestimo db eid with
  | none =>
    left
    simp only [renovar, he]
  | some emp =>
    by_cases hlt : emp.renovacoes < 2
    · refine Or.inr ⟨emp, rfl, hlt, ?_⟩
      simp only [renovar, he]
      rw [if_pos hlt]
    · left
      simp only [renovar, he]
      rw [if_neg hlt]

theorem inv_dbInit : idsOk dbInit ∧ inventarioOk dbInit := by
  unfold idsOk inventarioOk dbInit
  refine ⟨⟨?_, ?_, ?_, ?_⟩, ?_⟩ <;> simp

theorem preserva_criarLivro (db : DB) (t a : String) (q : Int)
    (ed su fe : String) (img : Option String)
    (H : idsOk db ∧ inventarioOk db) :
    idsOk (criarLivro db t a q ed su fe img).2 ∧
      inventarioOk (criarLivro db t a q ed su fe img).2 := by
  obtain ⟨⟨h1, h2, h3, h4⟩, hInv⟩ := H
  unfold idsOk inventarioOk
  refine ⟨⟨?_, ?_, h3, h4⟩, ?_⟩
  · intro l hl
    show l.id < db.nextLivroId + 1
    have hl' : l ∈ db.livros ++
        [{ id := db.nextLivroId, titulo := t, autor := a, quantidade := q,
           editora := ed, assunto := su, faixaEtaria := fe, imagem := img }] := hl
    rcases List.mem_append.mp hl' with h | h
    · exact Nat.lt_succ_of_lt (h1 l h)
    · rcases List.mem_singleton.mp h with rfl
      show db.nextLivroId < db.nextLivroId + 1
      exact Nat.lt_succ_self db.nextLivroId
  · intro e he
    show e.livroId < db.nextLivroId + 1
    exact Nat.lt_succ_of_lt (h2 e he)
  · intro l hl
    have hl' : l ∈ db.livros ++
        [{ id := db.nextLivroId, titulo := t, autor := a, quantidade := q,
           editora := ed, assunto := su, faixaEtaria := fe, imagem := img }] := hl
    rcases List.mem_append.mp hl' with h | h
    · show l.quantidade + (db.emprestimos.countP (fun e => e.livroId == l.id) : Int) =
        ((((db.nextLivroId, q) :: db.totais).find? (fun p => p.1 == l.id)).map
          (fun p => p.2)).getD 0
      have hne : ((fun p => p.1 == l.id) ((db.nextLivroId, q) : Nat × Int)) = false := by
        simp only [beq_eq_false_iff_ne, ne_eq]
        have := h1 l h
        omega
      rw [find?_cons_false (fun p => p.1 == l.id) ((db.nextLivroId, q)) db.totais hne]
      exact hInv l h
    · rcases List.mem_singleton.mp h with rfl
      show q + (db.emprestimos.countP (fun e => e.livroId == db.nextLivroId) : Int) =
        ((((db.nextLivroId, q) :: db.totais).find? (fun p => p.1 == db.nextLivroId)).map
          (fun p => p.2)).getD 0
      have hpos : ((fun p => p.1 == db.nextLivroId) ((db.nextLivroId, q) : Nat × Int)) = true := by
        simp
      rw [find?_cons_true (fun p => p.1 == db.nextLivroId) ((db.nextLivroId, q)) db.totais hpos]
      have hz : db.emprestimos.countP (fun e => e.livroId == db.nextLivroId) = 0 := by
        rw [List.countP_eq_zero]
        intro e he
        have := h2 e he
        simp only [beq_iff_eq]
        omega
      rw [hz]
      simp

theorem preserva_alugar (db : DB) (u l : Nat) (agora : Int)
    (H : idsOk db ∧ inventarioOk db) :
    idsOk (alugar db u l agora).2 ∧ inventarioOk (alugar db u l agora).2 := by
  rcases alugar_snd_cases db u l agora with hcase | ⟨usuario, livro, hu, hl, hq, heq⟩
  · rw [hcase]
    exact H
  · rw [heq]
    obtain ⟨⟨h1, h2, h3, h4⟩, hInv⟩ := H
    have hlmem : livro ∈ db.livros := List.mem_of_find?_eq_some hl
    have hlid : livro.id = l := by simpa using List.find?_some hl
    unfold idsOk inventarioOk
    refine ⟨⟨?_, ?_, ?_, ?_⟩, ?_⟩
    · intro x hx
      have hx' : x ∈ updateLivro db.livros
          ({ livro with quantidade := livro.quantidade - 1 }) := hx
      show x.id < db.nextLivroId
      rcases mem_updateLivro hx' with rfl | ⟨hmem, _⟩
      · exact h1 livro hlmem
      · exact h1 x hmem
    · intro e he
      have he' : e ∈ db.emprestimos ++ [novoEmprestimo db u l agora] := he
      show e.livroId < db.nextLivroId
      rcases List.mem_append.mp he' with h | h
      · exact h2 e h
      · rcases List.mem_singleton.mp h with rfl
        show l < db.nextLivroId
        rw [← hlid]
        exact h1 livro hlmem
    · intro e he
      have he' : e ∈ db.emprestimos ++ [novoEmprestimo db u l agora] := he
      show e.id < db.nextEmprestimoId + 1
      rcases List.mem_append.mp he' with h | h
      · exact Nat.lt_succ_of_lt (h3 e h)
      · rcases List.mem_singleton.mp h with rfl
        show db.nextEmprestimoId < db.nextEmprestimoId + 1
        exact Nat.lt_succ_self db.nextEmprestimoId
    · show ((db.emprestimos ++ [novoEmprestimo db u l agora]).map (fun e => e.id)).Nodup
      rw [List.map_append, List.nodup_append]
      refine ⟨h4, by simp, ?_⟩
      intro x hx1 hx2
      rcases List.mem_map.mp hx1 with ⟨e, he, rfl⟩
      have hx2' : e.id = db.nextEmprestimoId := by simpa using hx2
      have := h3 e he
      omega
    · intro x hx
      have hx' : x ∈ updateLivro db.livros
          ({ livro with quantidade := livro.quantidade - 1 }) := hx
      rcases mem_updateLivro hx' with rfl | ⟨hmem, hne⟩
      · show livro.quantidade - 1 +
            (((db.emprestimos ++ [novoEmprestimo db u l agora]).countP
              (fun e => e.livroId == livro.id)) : Int) =
            ((db.totais.find? (fun p => p.1 == livro.id)).map (fun p => p.2)).getD 0
        rw [List.countP_append]
        have hce : ([novoEmprestimo db u l agora].countP
            (fun e => e.livroId == livro.id)) = 1 := by
          simp [novoEmprestimo, hlid]
        rw [hce]
        have hI : livro.quantidade +
            ((db.emprestimos.countP (fun e => e.livroId == livro.id)) : Int) =
            ((db.totais.find? (fun p => p.1 == livro.id)).map (fun p => p.2)).getD 0 :=
          hInv livro hlmem
        push_cast at hI ⊢
        omega
      · have hne2 : x.id ≠ livro.id := hne
        show x.quantidade +
            (((db.emprestimos ++ [novoEmprestimo db u l agora]).countP
              (fun e => e.livroId == x.id)) : Int) =
            ((db.totais.find? (fun p => p.1 == x.id)).map (fun p => p.2)).getD 0
        rw [List.countP_append]
        have hxl : l ≠ x.id := by
          rw [← hlid]
          exact fun hh => hne2 hh.symm
        have hce : ([novoEmprestimo db u l agora].countP
            (fun e => e.livroId == x.id)) = 0 := by
          simp [novoEmprestimo, hxl]
        rw [hce, Nat.add_zero]
        exact hInv x hmem

theorem preserva_devolver (db : DB) (eid : Nat)
    (H : idsOk db ∧ inventarioOk db) :
    idsOk (devolver db eid).2 ∧ inventarioOk (devolver db eid).2 := by
  rcases devolver_snd_cases db eid with hcase | ⟨emp, livro, he, hl, heq⟩
  · rw [hcase]
    exact H
  · rw [heq]
    obtain ⟨⟨h1, h2, h3, h4⟩, hInv⟩ := H
    have hemem : emp ∈ db.emprestimos := List.mem_of_find?_eq_some he
    have heid : emp.id = eid := by simpa using List.find?_some he
    have hlmem : livro ∈ db.livros := List.mem_of_find?_eq_some hl
    have hlid : livro.id = emp.livroId := by simpa using List.find?_some hl
    unfold idsOk inventarioOk
    refine ⟨⟨?_, ?_, ?_, ?_⟩, ?_⟩
    · intro x hx
      have hx' : x ∈ updateLivro db.livros
          ({ livro with quantidade := livro.quantidade + 1 }) := hx
      show x.id < db.nextLivroId
      rcases mem_updateLivro hx' with rfl | ⟨hmem, _⟩
      · exact h1 livro hlmem
      · exact h1 x hmem
    · intro e hee
      have hee' : e ∈ db.emprestimos.filter (fun y => !(y.id == eid)) := hee
      show e.livroId < db.nextLivroId
      exact h2 e (List.mem_of_mem_filter hee')
    · intro e hee
      have hee' : e ∈ db.emprestimos.filter (fun y => !(y.id == eid)) := hee
      show e.id < db.nextEmprestimoId
      exact h3 e (List.mem_of_mem_filter hee')
    · show ((db.emprestimos.filter (fun y => !(y.id == eid))).map (fun e => e.id)).Nodup
      exact List.Nodup.sublist (List.Sublist.map _ (List.filter_sublist _)) h4
    · intro x hx
      have hx' : x ∈ updateLivro db.livros
          ({ livro with quantidade := livro.quantidade + 1 }) := hx
      rcases mem_updateLivro hx' with rfl | ⟨hmem, hne⟩
      · show livro.quantidade + 1 +
            (((db.emprestimos.filter (fun y => !(y.id == eid))).countP
              (fun e => e.livroId == livro.id)) : Int) =
            ((db.totais.find? (fun p => p.1 == livro.id)).map (fun p => p.2)).getD 0
        have hc := countP_filter_ne db.emprestimos eid emp
          (fun e => e.livroId == livro.id) hemem heid h4
        have hpe : ((fun e => e.livroId == livro.id) emp) = true := by
          simp [hlid]
        have hc2 : ((db.emprestimos.filter (fun y => !(y.id == eid))).countP
            (fun e => e.livroId == livro.id)) + 1 =
            db.emprestimos.countP (fun e => e.livroId == livro.id) := by
          simpa [hpe] using hc
        have hI : livro.quantidade +
            ((db.emprestimos.countP (fun e => e.livroId == livro.id)) : Int) =
            ((db.totais.find? (fun p => p.1 == livro.id)).map (fun p => p.2)).getD 0 :=
          hInv livro hlmem
        push_cast at hI ⊢
        omega
      · have hne2 : x.id ≠ livro.id := hne
        show x.quantidade +
            (((db.emprestimos.filter (fun y => !(y.id == eid))).countP
              (fun e => e.livroId == x.id)) : Int) =
            ((db.totais.find? (fun p => p.1 == x.id)).map (fun p => p.2)).getD 0
        have hc := countP_filter_ne db.emprestimos eid emp
          (fun e => e.livroId == x.id) hemem heid h4
        have hpe : ((fun e => e.livroId == x.id) emp) = false := by
          simp only [beq_eq_false_iff_ne, ne_eq]
          intro hh
          exact hne2 (hlid.trans hh).symm
        have hc2 : ((db.emprestimos.filter (fun y => !(y.id == eid))).countP
            (fun e => e.livroId == x.id)) =
            db.emprestimos.countP (fun e => e.livroId == x.id) := by
          simpa [hpe] using hc
        rw [hc2]
        exact hInv x hmem

theorem preserva_renovar (db : DB) (eid : Nat)
    (H : idsOk db ∧ inventarioOk db) :
    idsOk (renovar db eid).2 ∧ inventarioOk (renovar db eid).2 := by
  rcases renovar_snd_cases db eid with hcase | ⟨emp, he, hlt, heq⟩
  · rw [hcase]
    exact H
  · rw [heq]
    obtain ⟨⟨h1, h2, h3, h4⟩, hInv⟩ := H
    have hemem : emp ∈ db.emprestimos := List.mem_of_find?_eq_some he
    unfold idsOk inventarioOk
    refine ⟨⟨?_, ?_, ?_, ?_⟩, ?_⟩
    · intro x hx
      show x.id < db.nextLivroId
      exact h1 x hx
    · intro e hee
      have hee' : e ∈ updateEmprestimo db.emprestimos
          ({ emp with renovacoes := emp.renovacoes + 1 }) := hee
      show e.livroId < db.nextLivroId
      rcases mem_updateEmprestimo hee' with rfl | ⟨hmem, _⟩
      · exact h2 emp hemem
      · exact h2 e hmem
    · intro e hee
      have hee' : e ∈ updateEmprestimo db.emprestimos
          ({ emp with renovacoes := emp.renovacoes + 1 }) := hee
      show e.id < db.nextEmprestimoId
      rcases mem_updateEmprestimo hee' with rfl | ⟨hmem, _⟩
      · exact h3 emp hemem
      · exact h3 e hmem
    · show ((updateEmprestimo db.emprestimos
          ({ emp with renovacoes := emp.renovacoes + 1 })).map (fun e => e.id)).Nodup
      rw [map_id_updateEmprestimo]
      exact h4
    · intro x hx
      show x.quantidade +
          (((updateEmprestimo db.emprestimos
            ({ emp with renovacoes := emp.renovacoes + 1 })).countP
            (fun e => e.livroId == x.id)) : Int) =
          ((db.totais.find? (fun p => p.1 == x.id)).map (fun p => p.2)).getD 0
      rw [countP_updateEmprestimo db.emprestimos
        ({ emp with renovacoes := emp.renovacoes + 1 }) emp
        (fun e => e.livroId == x.id) hemem rfl rfl h4]
      exact hInv x hx

theorem inv_reachable_sem_atualizar (b : Bool) (db : DB) (h : Reachable b db) :
    b = false → idsOk db ∧ inventarioOk db := by
  induction h with
  | init b => exact fun _ => inv_dbInit
  | stepRegistrar b db nome email senha hr ih =>
    intro hb
    exact invariantes_congr db _ rfl rfl rfl rfl rfl (ih hb)
  | stepCriarLivro b db t a q ed su fe img hr ih =>
    intro hb
    exact preserva_criarLivro db t a q ed su fe img (ih hb)
  | stepAtualizarLivro db livroId body file hr ih =>
    intro hb
    exact Bool.noConfusion hb
  | stepAtualizarUsuario b db id body hr ih =>
    intro hb
    obtain ⟨e1, e2, e3, e4, e5⟩ := atualizarUsuario_snd db id body
    exact invariantes_congr db _ e1 e2 e3 e4 e5 (ih hb)
  | stepAlugar b db u l agora hr ih =>
    intro hb
    exact preserva_alugar db u l agora (ih hb)
  | stepDevolver b db eid hr ih =>
    intro hb
    exact preserva_devolver db eid (ih hb)
  | stepRenovar b db eid hr ih =>
    intro hb
    exact preserva_renovar db eid (ih hb)

theorem renovacoesOk_reachable (b : Bool) (db : DB) (h : Reachable b db) :
    renovacoesOk db := by
  induction h with
  | init b =>
    intro e he
    simp [dbInit] at he
  | stepRegistrar b db nome email senha hr ih =>
    intro e he
    exact ih e he
  | stepCriarLivro b db t a q ed su fe img hr ih =>
    intro e he
    exact ih e he
  | stepAtualizarLivro db livroId body file hr ih =>
    intro e he
    rw [atualizarLivro_emprestimos db livroId body file] at he
    exact ih e he
  | stepAtualizarUsuario b db id body hr ih =>
    intro e he
    rw [(atualizarUsuario_snd db id body).2.1] at he
    exact ih e he
  | stepAlugar b db u l agora hr ih =>
    intro e he
    rcases alugar_snd_cases db u l agora with hcase | ⟨usuario, livro, hu, hl, hq, heq⟩
    · rw [hcase] at he
      exact ih e he
    · rw [heq] at he
      have he' : e ∈ db.emprestimos ++ [novoEmprestimo db u l agora] := he
      rcases List.mem_append.mp he' with hh | hh
      · exact ih e hh
      · rcases List.mem_singleton.mp hh with rfl
        show (0 : Nat) ≤ 2
        decide
  | stepDevolver b db eid hr ih =>
    intro e he
    rcases devolver_snd_cases db eid with hcase | ⟨emp, livro, hfe, hfl, heq⟩
    · rw [hcase] at he
      exact ih e he
    · rw [heq] at he
      have he' : e ∈ db.emprestimos.filter (fun y => !(y.id == eid)) := he
      exact ih e (List.mem_of_mem_filter he')
  | stepRenovar b db eid hr ih =>
    intro e he
    rcases renovar_snd_cases db eid with hcase | ⟨emp, hfe, hlt, heq⟩
    · rw [hcase] at he
      exact ih e he
    · rw [heq] at he
      have he' : e ∈ updateEmprestimo db.emprestimos
          ({ emp with renovacoes := emp.renovacoes + 1 }) := he
      rcases mem_updateEmprestimo he' with rfl | ⟨hmem, _⟩
      · show emp.renovacoes + 1 ≤ 2
        omega
      · exact ih e hmem

/-! Behaviour of the JavaScript falsy-fallback helpers. -/

theorem jsOrString_falsy (novo : Option String) (antigo : String)
    (h : novo = none ∨ novo = some "") : jsOrString novo antigo = antigo := by
  rcases h with rfl | rfl <;> simp [jsOrString]

theorem jsOrString_truthy (novo antigo : String) (h : novo ≠ "") :
    jsOrString (some novo) antigo = novo := by
  simp [jsOrString, h]

theorem jsOrInt_falsy (novo : Option Int) (antigo : Int)
    (h : novo = none ∨ novo = some 0) : jsOrInt novo antigo = antigo := by
  rcases h with rfl | rfl <;> simp [jsOrInt]

theorem jsOrInt_truthy (novo antigo : Int) (h : novo ≠ 0) :
    jsOrInt (some novo) antigo = novo := by
  simp [jsOrInt, h]

/-! Concrete stores used as counterexamples and witnesses. -/

/-- Trace for C1: register a user, create a book with quantity 1, borrow it. -/
def dbC1a : DB := (registrar dbInit "Ana" "ana@ex.com" "s1").2

def dbC1b : DB := (criarLivro dbC1a "Dom Casmurro" "Machado" 1 "Ed" "Romance" "Livre" none).2

def dbC1c : DB := (alugar dbC1b 1 1 100).2

def bodyC1 : LivroBody :=
  { titulo := none, autor := none, quantidade := some 5,
    editora := none, assunto := none, faixaEtaria := none }

/-- The C1 trace extended by a book update that overwrites the quantity. -/
def dbC1d : DB := (atualizarLivro dbC1c 1 bodyC1 none).2

theorem reachC1d : Reachable true dbC1d :=
  Reachable.stepAtualizarLivro dbC1c 1 bodyC1 none
    (Reachable.stepAlugar true dbC1b 1 1 100
      (Reachable.stepCriarLivro true dbC1a "Dom Casmurro" "Machado" 1 "Ed" "Romance" "Livre" none
        (Reachable.stepRegistrar true dbInit "Ana" "ana@ex.com" "s1" (Reachable.init true))))

theorem reachC1c : Reachable false dbC1c :=
  Reachable.stepAlugar false dbC1b 1 1 100
    (Reachable.stepCriarLivro false dbC1a "Dom Casmurro" "Machado" 1 "Ed" "Romance" "Livre" none
      (Reachable.stepRegistrar false dbInit "Ana" "ana@ex.com" "s1" (Reachable.init false)))

/-- C1 counterexample: after register, create(quantity 1), borrow, and then a
book update submitting quantidade 5 while the loan is open, the book's
available quantity (5) plus its open-loan count (1) no longer equals its
total quantity (1, the creation quantity); the claim includes book update
among the operations preserving the invariant, so the claim is false. -/
theorem c1_counterexample : Reachable true dbC1d ∧ ¬ inventarioOk dbC1d :=
  ⟨reachC1d, by decide⟩

/-- C1 (amended): for every state reachable by borrow, renew, return, book
creation and the user operations — i.e. excluding book updates — every
book's available quantity plus the count of open loans referencing it
equals the book's total (creation) quantity. -/
theorem c1_inventario (db : DB) (h : Reachable false db) : inventarioOk db :=
  (inv_reachable_sem_atualizar false db h rfl).2

theorem c1_inventario_witness : inventarioOk dbC1c :=
  c1_inventario dbC1c reachC1c

/-- Store for C2: one user (id 1) and one book (id 1) with zero quantity. -/
def dbC2 : DB :=
  (criarLivro (registrar dbInit "Bia" "bia@ex.com" "s2").2
    "Iliada" "Homero" 0 "Ed" "Epico" "Livre" none).2

/-- C2 counterexample: the handler answers the single 400 result
`AlugarResult.invalido` (line 258, one error message) both when the user id
does not resolve (user 99) and when both ids resolve but the quantity is 0
(user 1, book 1), so borrowing does not fail with distinct NotFound and
Unavailable error kinds. -/
theorem c2_counterexample :
    findUsuario dbC2 99 = none ∧
    (findLivro dbC2 1).map (fun l => l.quantidade) = some 0 ∧
    (alugar dbC2 99 1 0).1 = AlugarResult.invalido ∧
    (alugar dbC2 1 1 0).1 = AlugarResult.invalido ∧
    (alugar dbC2 99 1 0).1 = (alugar dbC2 1 1 0).1 := by
  decide

/-- C2 (amended): when the user id or book id does not resolve, or the book
resolves with quantity at most 0, borrow fails with the handler's single
undifferentiated 400 error and mutates nothing. -/
theorem c2_alugar_falha (db : DB) (u l : Nat) (agora : Int)
    (h : findUsuario db u = none ∨ findLivro db l = none ∨
      ∃ lv, findLivro db l = some lv ∧ lv.quantidade ≤ 0) :
    (alugar db u l agora).1 = AlugarResult.invalido ∧ (alugar db u l agora).2 = db := by
  cases hu : findUsuario db u with
  | none => constructor <;> simp [alugar, hu]
  | some usuario =>
    cases hl : findLivro db l with
    | none => constructor <;> simp [alugar, hu, hl]
    | some livro =>
      have hq : ¬ 0 < livro.quantidade := by
        rcases h with h | h | ⟨lv, hlv, hle⟩
        · rw [hu] at h
          exact absurd h (by simp)
        · rw [hl] at h
          exact absurd h (by simp)
        · rw [hl] at hlv
          rcases Option.some.inj hlv with rfl
          omega
      constructor <;> (simp only [alugar, hu, hl]; rw [if_neg hq])

theorem c2_alugar_falha_witness :
    (alugar dbC2 99 1 0).1 = AlugarResult.invalido ∧ (alugar dbC2 99 1 0).2 = dbC2 :=
  c2_alugar_falha dbC2 99 1 0 (Or.inl (by decide))

/-- Store for C3: user 1, book 1 (quantity 3), loan 1 created at day 100,
so the stored due date is day 107 with renewal count 0. -/
def dbC3 : DB :=
  (alugar (criarLivro (registrar dbInit "Ana" "ana@ex.com" "s1").2
    "Dom Casmurro" "Machado" 3 "Ed" "Romance" "Livre" none).2 1 1 100).2

/-- C3: renewing loan 1 reports success and persists renewal count 1, but
the stored due date stays at day 107 instead of 114: line 299 mutates the
Date held in `dataVencimento` in place, Sequelize's change tracking never
flags the attribute, and `save()` omits it.  The handler's in-memory object
(`renovarEmMemoria`) does carry day 114, which is what the spec describes,
so the persisted store contradicts the intended effect. -/
theorem c3_renovar_data_nao_persistida :
    (renovar dbC3 1).1 = RenovarResult.sucesso ∧
    findEmprestimo (renovar dbC3 1).2 1 =
      some { id := 1, usuarioId := 1, livroId := 1, dataVencimento := 107, renovacoes := 1 } ∧
    (findEmprestimo dbC3 1).map renovarEmMemoria =
      some { id := 1, usuarioId := 1, livroId := 1, dataVencimento := 114, renovacoes := 1 } := by
  decide

/-- Trace for C4: user 1, book 1 (quantity 2), borrow at day 50, then two
successful renewals, leaving loan 1 with renewal count 2. -/
def dbC4a : DB := (registrar dbInit "Caio" "caio@ex.com" "s4").2

def dbC4b : DB := (criarLivro dbC4a "Odisseia" "Homero" 2 "Ed" "Epico" "Livre" none).2

def dbC4c : DB := (alugar dbC4b 1 1 50).2

def dbC4d : DB := (renovar (renovar dbC4c 1).2 1).2

theorem reachC4d : Reachable false dbC4d :=
  Reachable.stepRenovar false (renovar dbC4c 1).2 1
    (Reachable.stepRenovar false dbC4c 1
      (Reachable.stepAlugar false dbC4b 1 1 50
        (Reachable.stepCriarLivro false dbC4a "Odisseia" "Homero" 2 "Ed" "Epico" "Livre" none
          (Reachable.stepRegistrar false dbInit "Caio" "caio@ex.com" "s4"
            (Reachable.init false)))))

/-- C4: in every reachable state every loan's renewal count is at most 2,
and renewing a loan whose count is already 2 fails with the handler's 400
(whose message is the renewal-limit message of line 304) while leaving the
store, hence the count, unchanged. -/
theorem c4_renovacoes_limite (b : Bool) (db : DB) (h : Reachable b db) :
    renovacoesOk db ∧
    ∀ eid emp, findEmprestimo db eid = some emp → emp.renovacoes = 2 →
      (renovar db eid).1 = RenovarResult.naoPodeRenovar ∧ (renovar db eid).2 = db := by
  refine ⟨renovacoesOk_reachable b db h, ?_⟩
  intro eid emp he h2
  have hnot : ¬ emp.renovacoes < 2 := by omega
  constructor <;> (simp only [renovar, he]; rw [if_neg hnot])

theorem c4_renovacoes_limite_witness :
    renovacoesOk dbC4d ∧
    ((renovar dbC4d 1).1 = RenovarResult.naoPodeRenovar ∧ (renovar dbC4d 1).2 = dbC4d) :=
  ⟨(c4_renovacoes_limite false dbC4d reachC4d).1,
   (c4_renovacoes_limite false dbC4d reachC4d).2 1
     { id := 1, usuarioId := 1, livroId := 1, dataVencimento := 57, renovacoes := 2 }
     (by decide) (by decide)⟩

/-- C5: returning an existing loan whose book resolves succeeds, increments
exactly that book's quantity by 1, removes exactly the loans carrying that
primary key (exactly one row when loan ids are distinct, as they are in
every reachable store), and a second return of the same id fails with the
unresolved-loan 400 and changes nothing further. -/
theorem devolver_none (db : DB) (eid : Nat) (h : findEmprestimo db eid = none) :
    devolver db eid = (DevolverResult.emprestimoInvalido, db) := by
  simp only [devolver, h]

theorem c5_devolver (db : DB) (eid : Nat) (emp : Emprestimo) (lv : Livro)
    (he : findEmprestimo db eid = some emp) (hl : findLivro db emp.livroId = some lv)
    (hn : (db.emprestimos.map (fun x => x.id)).Nodup) :
    (devolver db eid).1 = DevolverResult.sucesso ∧
    findLivro (devolver db eid).2 emp.livroId =
      some { lv with quantidade := lv.quantidade + 1 } ∧
    (devolver db eid).2.emprestimos = db.emprestimos.filter (fun x => !(x.id == eid)) ∧
    (devolver db eid).2.emprestimos.length + 1 = db.emprestimos.length ∧
    (devolver (devolver db eid).2 eid).1 = DevolverResult.emprestimoInvalido ∧
    (devolver (devolver db eid).2 eid).2 = (devolver db eid).2 := by
  have hsnd : (devolver db eid).2 =
      { db with
        livros := updateLivro db.livros ({ lv with quantidade := lv.quantidade + 1 }),
        emprestimos := db.emprestimos.filter (fun e => !(e.id == eid)) } := by
    simp only [devolver, he, hl]
  have hfind2 : findEmprestimo (devolver db eid).2 eid = none := by
    rw [hsnd]
    show (db.emprestimos.filter (fun e => !(e.id == eid))).find? (fun e => e.id == eid) = none
    exact find?_id_filter_ne db.emprestimos eid
  refine ⟨?_, ?_, ?_, ?_, ?_, ?_⟩
  · simp only [devolver, he, hl]
  · rw [hsnd]
    show (updateLivro db.livros ({ lv with quantidade := lv.quantidade + 1 })).find?
      (fun x => x.id == emp.livroId) = some ({ lv with quantidade := lv.quantidade + 1 })
    exact find?_updateLivro db.livros emp.livroId lv _ hl rfl
  · rw [hsnd]
  · rw [hsnd]
    show (db.emprestimos.filter (fun e => !(e.id == eid))).length + 1 = db.emprestimos.length
    exact length_filter_ne db.emprestimos eid emp (List.mem_of_find?_eq_some he)
      (by simpa using List.find?_some he) hn
  · rw [devolver_none _ _ hfind2]
  · rw [devolver_none _ _ hfind2]

/-- Store for C5's witness: user 1, book 1 (quantity 1), loan 1 created at
day 10; after the borrow the book's stored quantity is 0. -/
def dbC5 : DB :=
  (alugar (criarLivro (registrar dbInit "Duda" "duda@ex.com" "s5").2
    "Lusiadas" "Camoes" 1 "Ed" "Epico" "Livre" none).2 1 1 10).2

def empC5 : Emprestimo :=
  { id := 1, usuarioId := 1, livroId := 1, dataVencimento := 17, renovacoes := 0 }

def lvC5 : Livro :=
  { id := 1, titulo := "Lusiadas", autor := "Camoes", quantidade := 0,
    editora := "Ed", assunto := "Epico", faixaEtaria := "Livre", imagem := none }

theorem c5_devolver_witness :
    (devolver dbC5 1).1 = DevolverResult.sucesso ∧
    findLivro (devolver dbC5 1).2 empC5.livroId =
      some { lvC5 with quantidade := lvC5.quantidade + 1 } ∧
    (devolver dbC5 1).2.emprestimos = dbC5.emprestimos.filter (fun x => !(x.id == 1)) ∧
    (devolver dbC5 1).2.emprestimos.length + 1 = dbC5.emprestimos.length ∧
    (devolver (devolver dbC5 1).2 1).1 = DevolverResult.emprestimoInvalido ∧
    (devolver (devolver dbC5 1).2 1).2 = (devolver dbC5 1).2 :=
  c5_devolver dbC5 1 empC5 lvC5 (by decide) (by decide) (by decide)

/-- C6: when the loan resolves but its referenced book does not, return
fails with the 400 of line 280, the store is unchanged — so the loan row is
still present and no book quantity was incremented. -/
theorem c6_devolver_livro_ausente (db : DB) (eid : Nat) (emp : Emprestimo)
    (he : findEmprestimo db eid = some emp) (hl : findLivro db emp.livroId = none) :
    (devolver db eid).1 = DevolverResult.livroNaoEncontrado ∧
    (devolver db eid).2 = db ∧
    findEmprestimo (devolver db eid).2 eid = some emp := by
  have h2 : (devolver db eid).2 = db := by simp only [devolver, he, hl]
  refine ⟨by simp only [devolver, he, hl], h2, ?_⟩
  rw [h2]
  exact he

/-- Store for C6's witness: a single loan whose book id 7 does not exist
(the store has no books at all). -/
def empC6 : Emprestimo :=
  { id := 1, usuarioId := 1, livroId := 7, dataVencimento := 20, renovacoes := 0 }

def dbC6 : DB :=
  { usuarios := [], livros := [], emprestimos := [empC6],
    nextUsuarioId := 2, nextLivroId := 8, nextEmprestimoId := 2, totais := [] }

theorem c6_devolver_livro_ausente_witness :
    (devolver dbC6 1).1 = DevolverResult.livroNaoEncontrado ∧
    (devolver dbC6 1).2 = dbC6 ∧
    findEmprestimo (devolver dbC6 1).2 1 = some empC6 :=
  c6_devolver_livro_ausente dbC6 1 empC6 (by decide) (by decide)

/-- C7: when both ids resolve and the book's quantity is positive, borrow
returns 201 with exactly the new loan — primary key the next loan id,
due date the current day plus 7, renewal count 0 — appends exactly that one
loan row, decrements that book's quantity by exactly 1, and advances the
loan auto-increment; users are untouched. -/
theorem c7_alugar_sucesso (db : DB) (u l : Nat) (agora : Int)
    (usuario : Usuario) (livro : Livro)
    (hu : findUsuario db u = some usuario) (hl : findLivro db l = some livro)
    (hq : 0 < livro.quantidade) :
    (alugar db u l agora).1 = AlugarResult.created (novoEmprestimo db u l agora) ∧
    (novoEmprestimo db u l agora).dataVencimento = agora + 7 ∧
    (novoEmprestimo db u l agora).renovacoes = 0 ∧
    (novoEmprestimo db u l agora).usuarioId = u ∧
    (novoEmprestimo db u l agora).livroId = l ∧
    (alugar db u l agora).2.emprestimos = db.emprestimos ++ [novoEmprestimo db u l agora] ∧
    findLivro (alugar db u l agora).2 l =
      some { livro with quantidade := livro.quantidade - 1 } ∧
    (alugar db u l agora).2.nextEmprestimoId = db.nextEmprestimoId + 1 ∧
    (alugar db u l agora).2.usuarios = db.usuarios := by
  have hsnd : (alugar db u l agora).2 =
      { db with
        emprestimos := db.emprestimos ++ [novoEmprestimo db u l agora],
        livros := updateLivro db.livros ({ livro with quantidade := livro.quantidade - 1 }),
        nextEmprestimoId := db.nextEmprestimoId + 1 } := by
    simp only [alugar, hu, hl]
    rw [if_pos hq]
  refine ⟨?_, rfl, rfl, rfl, rfl, ?_, ?_, ?_, ?_⟩
  · simp only [alugar, hu, hl]
    rw [if_pos hq]
  · rw [hsnd]
  · rw [hsnd]
    show (updateLivro db.livros ({ livro with quantidade := livro.quantidade - 1 })).find?
      (fun x => x.id == l) = some ({ livro with quantidade := livro.quantidade - 1 })
    exact find?_updateLivro db.livros l livro _ hl rfl
  · rw [hsnd]
  · rw [hsnd]

/-- Store for C7's witness: user 1, book 1 with quantity 2. -/
def dbC7 : DB :=
  (criarLivro (registrar dbInit "Eva" "eva@ex.com" "s7").2
    "Quincas Borba" "Machado" 2 "Ed" "Romance" "Livre" none).2

def usuarioC7 : Usuario := { id := 1, nome := "Eva", email := "eva@ex.com", senha := "s7" }

def livroC7 : Livro :=
  { id := 1, titulo := "Quincas Borba", autor := "Machado", quantidade := 2,
    editora := "Ed", assunto := "Romance", faixaEtaria := "Livre", imagem := none }

theorem c7_alugar_sucesso_witness :
    (alugar dbC7 1 1 30).1 = AlugarResult.created (novoEmprestimo dbC7 1 1 30) ∧
    (novoEmprestimo dbC7 1 1 30).dataVencimento = 30 + 7 ∧
    (novoEmprestimo dbC7 1 1 30).renovacoes = 0 ∧
    (novoEmprestimo dbC7 1 1 30).usuarioId = 1 ∧
    (novoEmprestimo dbC7 1 1 30).livroId = 1 ∧
    (alugar dbC7 1 1 30).2.emprestimos = dbC7.emprestimos ++ [novoEmprestimo dbC7 1 1 30] ∧
    findLivro (alugar dbC7 1 1 30).2 1 =
      some { livroC7 with quantidade := livroC7.quantidade - 1 } ∧
    (alugar dbC7 1 1 30).2.nextEmprestimoId = dbC7.nextEmprestimoId + 1 ∧
    (alugar dbC7 1 1 30).2.usuarios = dbC7.usuarios :=
  c7_alugar_sucesso dbC7 1 1 30 usuarioC7 livroC7 (by decide) (by decide) (by decide)

/-- C8: updating an existing book returns and stores `livroAtualizado`, and
field by field a missing or falsy submitted value (none or the empty
string; none or 0 for quantidade) keeps the stored value, while a truthy
submitted value replaces it. -/
theorem c8_atualizar_livro (db : DB) (livroId : Nat) (body : LivroBody)
    (file : Option String) (livro : Livro) (h : findLivro db livroId = some livro) :
    (atualizarLivro db livroId body file).1 =
      AtualizarLivroResult.atualizado (livroAtualizado livro body file) ∧
    findLivro (atualizarLivro db livroId body file).2 livroId =
      some (livroAtualizado livro body file) ∧
    ((body.titulo = none ∨ body.titulo = some "") →
      (livroAtualizado livro body file).titulo = livro.titulo) ∧
    (∀ s, body.titulo = some s → s ≠ "" → (livroAtualizado livro body file).titulo = s) ∧
    ((body.autor = none ∨ body.autor = some "") →
      (livroAtualizado livro body file).autor = livro.autor) ∧
    (∀ s, body.autor = some s → s ≠ "" → (livroAtualizado livro body file).autor = s) ∧
    ((body.quantidade = none ∨ body.quantidade = some 0) →
      (livroAtualizado livro body file).quantidade = livro.quantidade) ∧
    (∀ n, body.quantidade = some n → n ≠ 0 →
      (livroAtualizado livro body file).quantidade = n) ∧
    ((body.editora = none ∨ body.editora = some "") →
      (livroAtualizado livro body file).editora = livro.editora) ∧
    (∀ s, body.editora = some s → s ≠ "" → (livroAtualizado livro body file).editora = s) ∧
    ((body.assunto = none ∨ body.assunto = some "") →
      (livroAtualizado livro body file).assunto = livro.assunto) ∧
    (∀ s, body.assunto = some s → s ≠ "" → (livroAtualizado livro body file).assunto = s) ∧
    ((body.faixaEtaria = none ∨ body.faixaEtaria = some "") →
      (livroAtualizado livro body file).faixaEtaria = livro.faixaEtaria) ∧
    (∀ s, body.faixaEtaria = some s → s ≠ "" →
      (livroAtualizado livro body file).faixaEtaria = s) := by
  have hsnd : (atualizarLivro db livroId body file).2 =
      { db with livros := updateLivro db.livros (livroAtualizado livro body file) } := by
    simp only [atualizarLivro, h]
  refine ⟨by simp only [atualizarLivro, h], ?_, ?_, ?_, ?_, ?_, ?_, ?_, ?_, ?_, ?_, ?_, ?_, ?_⟩
  · rw [hsnd]
    show (updateLivro db.livros (livroAtualizado livro body file)).find?
      (fun x => x.id == livroId) = some (livroAtualizado livro body file)
    exact find?_updateLivro db.livros livroId livro _ h rfl
  · intro hh
    exact jsOrString_falsy body.titulo livro.titulo hh
  · intro s hs hne
    show jsOrString body.titulo livro.titulo = s
    rw [hs]
    exact jsOrString_truthy s livro.titulo hne
  · intro hh
    exact jsOrString_falsy body.autor livro.autor hh
  · intro s hs hne
    show jsOrString body.autor livro.autor = s
    rw [hs]
    exact jsOrString_truthy s livro.autor hne
  · intro hh
    exact jsOrInt_falsy body.quantidade livro.quantidade hh
  · intro n hn hne
    show jsOrInt body.quantidade livro.quantidade = n
    rw [hn]
    exact jsOrInt_truthy n livro.quantidade hne
  · intro hh
    exact jsOrString_falsy body.editora livro.editora hh
  · intro s hs hne
    show jsOrString body.editora livro.editora = s
    rw [hs]
    exact jsOrString_truthy s livro.editora hne
  · intro hh
    exact jsOrString_falsy body.assunto livro.assunto hh
  · intro s hs hne
    show jsOrString body.assunto livro.assunto = s
    rw [hs]
    exact jsOrString_truthy s livro.assunto hne
  · intro hh
    exact jsOrString_falsy body.faixaEtaria livro.faixaEtaria hh
  · intro s hs hne
    show jsOrString body.faixaEtaria livro.faixaEtaria = s
    rw [hs]
    exact jsOrString_truthy s livro.faixaEtaria hne

/-- Store for C8's witness: book 1 with titulo "A"; the update submits the
falsy titulo "" and the truthy autor "B", the scenario of the spec. -/
def dbC8 : DB :=
  (criarLivro (registrar dbInit "Gal" "gal@ex.com" "s8").2
    "A" "X" 3 "Ed" "S" "Livre" none).2

def bodyC8 : LivroBody :=
  { titulo := some "", autor := some "B", quantidade := none,
    editora := none, assunto := none, faixaEtaria := none }

def livroC8 : Livro :=
  { id := 1, titulo := "A", autor := "X", quantidade := 3,
    editora := "Ed", assunto := "S", faixaEtaria := "Livre", imagem := none }

theorem c8_atualizar_livro_witness :
    (atualizarLivro dbC8 1 bodyC8 none).1 =
      AtualizarLivroResult.atualizado (livroAtualizado livroC8 bodyC8 none) ∧
    (livroAtualizado livroC8 bodyC8 none).titulo = "A" ∧
    (livroAtualizado livroC8 bodyC8 none).autor = "B" :=
  ⟨(c8_atualizar_livro dbC8 1 bodyC8 none livroC8 (by decide)).1,
   (c8_atualizar_livro dbC8 1 bodyC8 none livroC8 (by decide)).2.2.1 (Or.inr rfl),
   (c8_atualizar_livro dbC8 1 bodyC8 none livroC8 (by decide)).2.2.2.2.2.1 "B" rfl
     (by decide)⟩

/-- C10: login leaves the store unchanged, succeeds exactly when some stored
user's email and senha both equal the submitted values, and any returned
record is a stored user row itself — including its senha field — matching
both submitted values. -/
theorem c10_login (db : DB) (email senha : String) :
    (login db email senha).2 = db ∧
    ((login db email senha).1.isSome ↔
      ∃ u ∈ db.usuarios, u.email = email ∧ u.senha = senha) ∧
    ∀ u, (login db email senha).1 = some u →
      u ∈ db.usuarios ∧ u.email = email ∧ u.senha = senha := by
  refine ⟨rfl, ?_, ?_⟩
  · show (db.usuarios.find? (fun u => u.email == email && u.senha == senha)).isSome ↔ _
    rw [List.find?_isSome]
    constructor
    · rintro ⟨u, hu, hp⟩
      simp only [Bool.and_eq_true, beq_iff_eq] at hp
      exact ⟨u, hu, hp.1, hp.2⟩
    · rintro ⟨u, hu, h1, h2⟩
      exact ⟨u, hu, by simp [h1, h2]⟩
  · intro u hu
    have hmem := List.mem_of_find?_eq_some hu
    have hp := List.find?_some hu
    simp only [Bool.and_eq_true, beq_iff_eq] at hp
    exact ⟨hmem, hp.1, hp.2⟩

/-- Store for C10's witness: a single registered user. -/
def dbC10 : DB := (registrar dbInit "Ana" "ana@ex.com" "senha123").2

theorem c10_login_witness :
    (login dbC10 "ana@ex.com" "senha123").2 = dbC10 ∧
    (login dbC10 "ana@ex.com" "senha123").1 =
      some { id := 1, nome := "Ana", email := "ana@ex.com", senha := "senha123" } :=
  ⟨(c10_login dbC10 "ana@ex.com" "senha123").1, by decide⟩

theorem atualizarLivro_snd (db : DB) (livroId : Nat) (body : LivroBody)
    (file : Option String) :
    (atualizarLivro db livroId body file).2.emprestimos = db.emprestimos ∧
    (atualizarLivro db livroId body file).2.nextEmprestimoId = db.nextEmprestimoId := by
  unfold atualizarLivro
  cases hf : findLivro db livroId
  · exact ⟨rfl, rfl⟩
  · exact ⟨rfl, rfl⟩

/-- In every reachable store — book updates included — loan primary keys
are below the auto-increment counter and pairwise distinct.  This backs the
`Nodup` hypothesis of the return theorem. -/
theorem emprestimoIds_reachable (b : Bool) (db : DB) (h : Reachable b db) :
    (∀ e ∈ db.emprestimos, e.id < db.nextEmprestimoId) ∧
    (db.emprestimos.map (fun x => x.id)).Nodup := by
  induction h with
  | init b => constructor <;> simp [dbInit]
  | stepRegistrar b db nome email senha hr ih => exact ih
  | stepCriarLivro b db t a q ed su fe img hr ih => exact ih
  | stepAtualizarLivro db livroId body file hr ih =>
    obtain ⟨hemp, hnext⟩ := atualizarLivro_snd db livroId body file
    rw [hemp, hnext]
    exact ih
  | stepAtualizarUsuario b db id body hr ih =>
    obtain ⟨e1, e2, e3, e4, e5⟩ := atualizarUsuario_snd db id body
    rw [e2, e4]
    exact ih
  | stepAlugar b db u l agora hr ih =>
    obtain ⟨i1, i2⟩ := ih
    rcases alugar_snd_cases db u l agora with hcase | ⟨usuario, livro, hu, hl, hq, heq⟩
    · rw [hcase]
      exact ⟨i1, i2⟩
    · rw [heq]
      constructor
      · intro e he
        have he' : e ∈ db.emprestimos ++ [novoEmprestimo db u l agora] := he
        show e.id < db.nextEmprestimoId + 1
        rcases List.mem_append.mp he' with hh | hh
        · exact Nat.lt_succ_of_lt (i1 e hh)
        · rcases List.mem_singleton.mp hh with rfl
          show db.nextEmprestimoId < db.nextEmprestimoId + 1
          exact Nat.lt_succ_self db.nextEmprestimoId
      · show ((db.emprestimos ++ [novoEmprestimo db u l agora]).map (fun e => e.id)).Nodup
        rw [List.map_append, List.nodup_append]
        refine ⟨i2, by simp, ?_⟩
        intro x hx1 hx2
        rcases List.mem_map.mp hx1 with ⟨e, he, rfl⟩
        have hx2' : e.id = db.nextEmprestimoId := by simpa using hx2
        have := i1 e he
        omega
  | stepDevolver b db eid hr ih =>
    obtain ⟨i1, i2⟩ := ih
    rcases devolver_snd_cases db eid with hcase | ⟨emp, livro, hfe, hfl, heq⟩
    · rw [hcase]
      exact ⟨i1, i2⟩
    · rw [heq]
      constructor
      · intro e he
        have he' : e ∈ db.emprestimos.filter (fun y => !(y.id == eid)) := he
        show e.id < db.nextEmprestimoId
        exact i1 e (List.mem_of_mem_filter he')
      · show ((db.emprestimos.filter (fun y => !(y.id == eid))).map (fun e => e.id)).Nodup
        exact List.Nodup.sublist (List.Sublist.map _ (List.filter_sublist _)) i2
  | stepRenovar b db eid hr ih =>
    obtain ⟨i1, i2⟩ := ih
    rcases renovar_snd_cases db eid with hcase | ⟨emp, hfe, hlt, heq⟩
    · rw [hcase]
      exact ⟨i1, i2⟩
    · rw [heq]
      have hemem : emp ∈ db.emprestimos := List.mem_of_find?_eq_some hfe
      constructor
      · intro e he
        have he' : e ∈ updateEmprestimo db.emprestimos
            ({ emp with renovacoes := emp.renovacoes + 1 }) := he
        show e.id < db.nextEmprestimoId
        rcases mem_updateEmprestimo he' with rfl | ⟨hmem, _⟩
        · exact i1 emp hemem
        · exact i1 e hmem
      · show ((updateEmprestimo db.emprestimos
            ({ emp with renovacoes := emp.renovacoes + 1 })).map (fun e => e.id)).Nodup
        rw [map_id_updateEmprestimo]
        exact i2
